import Mathlib

/-!
Shallow embedding of `src/pike_draw.py`: the `color_code` helper and the
`MyPage.draw_line` / `MyPage.draw_rect` methods, which assemble PDF
content-stream fragments and append them to a page's content stream.

Modelling choices:
* Python numbers (coordinates, widths, color components) are modelled as
  rationals (`ℚ`); the join/cap style arguments as integers (`ℤ`).
* Python's `str(...)` rendering of a number inside an f-string is modelled by
  Lean's `toString` on `ℚ` / `ℤ`, an injective textual rendering that agrees
  with Python on integral values.
* The dynamically typed color argument of `color_code` is a `PySeq`: either a
  Python `list` of numbers or a non-list sequence (such as a tuple) of
  numbers; the source guard tests `type(c) is not list`.
* `raise ValueError(msg)` is modelled by `Except.error msg`; a draw method
  returns `Except.ok` of the assembled fragment.
* `Page.contents_add` appends the assembled fragment to the page's list of
  content-stream fragments; in the source it is called exactly once, after
  the whole fragment has been assembled.
-/

/-- A dynamically typed color argument: a Python `list` of numbers, or a
non-list sequence (such as a tuple) of numbers. -/
inductive PySeq where
  | list : List ℚ → PySeq
  | tuple : List ℚ → PySeq
deriving DecidableEq

/-- Test `type(c) is list` from the source guard. -/
def PySeq.isList : PySeq → Bool
  | .list _ => true
  | .tuple _ => false

/-- The numeric components of the sequence (`c[i]`, `len(c)`, `min(c)`,
`max(c)` all act on these). -/
def PySeq.comps : PySeq → List ℚ
  | .list l => l
  | .tuple l => l

/-- Python `min` over a list (`min(c)` in `color_code`). The empty case is
junk: in the source it would raise, but it sits behind the `len(c) != 3`
short-circuit so it is never reached. -/
def pyMin : List ℚ → ℚ
  | [] => 0
  | x :: xs => xs.foldl min x

/-- Python `max` over a list (`max(c)` in `color_code`); empty case as in
`pyMin`. -/
def pyMax : List ℚ → ℚ
  | [] => 0
  | x :: xs => xs.foldl max x

/-- The `ValueError` message raised by `color_code`. -/
def colorErrMsg : String := "RGB color needs 3 color components in range 0 to 1"

/-- The guard of `color_code`:
`type(c) is not list or len(c) != 3 or min(c) < 0 or max(c) > 1`. -/
def colorBad (c : PySeq) : Bool :=
  !c.isList || c.comps.length != 3 ||
    decide (pyMin c.comps < 0) || decide (pyMax c.comps > 1)

/-- Rendering of a number in an f-string (`str` in Python, `toString` here). -/
def ratStr (q : ℚ) : String := toString q

/-- The operator string returned by `color_code`:
`f"{c[0]} {c[1]} {c[2]} RG "` when `f == "c"`, else the `rg ` variant. -/
def color_str (l : List ℚ) (f : String) : String :=
  ratStr (l.getD 0 0) ++ " " ++ ratStr (l.getD 1 0) ++ " " ++ ratStr (l.getD 2 0) ++
    (if f == "c" then " RG " else " rg ")

/-- Source `color_code(c, f)`: validate, then format. -/
def color_code (c : PySeq) (f : String) : Except String String :=
  if colorBad c then .error colorErrMsg else .ok (color_str c.comps f)

/-- The `ValueError` message for a negative border width. -/
def borderErrMsg : String := "border_width must be non-negative"

/-- The `ValueError` message for a join style outside `[0, 1, 2]`. -/
def joinErrMsg : String := "line_join_style value must be 0, 1, or 2"

/-- The `ValueError` message for a cap style outside `[0, 1, 2]`. -/
def capErrMsg : String := "line_cap_style value must be 0, 1, or 2"

/-- Source `dash_pattern_str`: `dash_pattern + " d"` when provided, else a single
blank separator token. -/
def dashStr : Option String → String
  | some d => d ++ " d"
  | none => " "

/-- Newline followed by the 8-space indentation of the Python triple-quoted
template literal. -/
def nl8 : String := "\n        "

/-- The part of the `draw_line` template before `{all_color_str}`:
`q`, move-to, line-to, width, close-path, join, cap, dash. -/
def line_head (start_point end_point : ℚ × ℚ) (border_width : ℚ)
    (line_join_style line_cap_style : ℤ) (dash : String) : String :=
  nl8 ++ "q" ++
  nl8 ++ ratStr start_point.1 ++ " " ++ ratStr start_point.2 ++ " m" ++
  nl8 ++ ratStr end_point.1 ++ " " ++ ratStr end_point.2 ++ " l" ++
  nl8 ++ ratStr border_width ++ " w" ++
  nl8 ++ "h" ++
  nl8 ++ toString line_join_style ++ " j" ++
  nl8 ++ toString line_cap_style ++ " J" ++
  nl8 ++ dash ++ nl8

/-- The part of both templates after `{all_color_str}`: restore state. -/
def stream_tail : String := nl8 ++ "Q" ++ nl8

/-- Source `line_stream_str`: the full `draw_line` template with the color/paint
block spliced in. -/
def line_stream (start_point end_point : ℚ × ℚ) (border_width : ℚ)
    (line_join_style line_cap_style : ℤ) (dash color : String) : String :=
  line_head start_point end_point border_width line_join_style line_cap_style dash ++
    color ++ stream_tail

/-- The part of the `draw_rect` template before `{all_color_str}`:
`q`, `re` rectangle path, width, close-path, join, cap, dash. -/
def rect_head (point : ℚ × ℚ) (width height border_width : ℚ)
    (line_join_style line_cap_style : ℤ) (dash : String) : String :=
  nl8 ++ "q" ++
  nl8 ++ ratStr point.1 ++ " " ++ ratStr point.2 ++ " " ++ ratStr width ++ " " ++
    ratStr height ++ " re" ++
  nl8 ++ ratStr border_width ++ " w" ++
  nl8 ++ "h" ++
  nl8 ++ toString line_join_style ++ " j" ++
  nl8 ++ toString line_cap_style ++ " J" ++
  nl8 ++ dash ++ nl8

/-- Source `rect_stream_str`: the full `draw_rect` template with the color/paint
block spliced in. -/
def rect_stream (point : ℚ × ℚ) (width height border_width : ℚ)
    (line_join_style line_cap_style : ℤ) (dash color : String) : String :=
  rect_head point width height border_width line_join_style line_cap_style dash ++
    color ++ stream_tail

/-- Source `MyPage.draw_line`: validate, encode the stroke color (default black),
append `'S'`, assemble the template. Returns the fragment or the error. -/
def draw_line (start_point end_point : ℚ × ℚ) (border_width : ℚ)
    (stroke_color : Option PySeq) (dash_pattern : Option String)
    (line_join_style line_cap_style : ℤ) : Except String String :=
  if border_width < 0 then .error borderErrMsg
  else if line_join_style ∉ ([0, 1, 2] : List ℤ) then .error joinErrMsg
  else if line_cap_style ∉ ([0, 1, 2] : List ℤ) then .error capErrMsg
  else
    (match stroke_color with
      | some sc => color_code sc "c"
      | none => color_code (.list [0, 0, 0]) "c").bind fun cstr =>
      .ok (line_stream start_point end_point border_width line_join_style line_cap_style
        (dashStr dash_pattern) (cstr ++ "S"))

/-- The `all_color_str` computation of `draw_rect` before the unconditional
`all_color_str += 'S'`: the four mutually exclusive branches. -/
def rect_color_block (fill_color stroke_color : Option PySeq) : Except String String :=
  match fill_color, stroke_color with
  | some fc, some sc =>
    (color_code fc "f").bind fun fs =>
      (color_code sc "c").bind fun ss => .ok (fs ++ ss ++ "B\n")
  | some fc, none => (color_code fc "f").bind fun fs => .ok (fs ++ "f\n")
  | none, some sc => (color_code sc "c").bind fun ss => .ok (ss ++ "\n")
  | none, none => (color_code (.list [0, 0, 0]) "c").bind fun ss => .ok (ss ++ "\n")

/-- Source `MyPage.draw_rect`: validate, build the color/paint block, append the
unconditional trailing `'S'`, assemble the template. -/
def draw_rect (point : ℚ × ℚ) (width height border_width : ℚ)
    (stroke_color : Option PySeq) (dash_pattern : Option String)
    (fill_color : Option PySeq) (line_join_style line_cap_style : ℤ) :
    Except String String :=
  if border_width < 0 then .error borderErrMsg
  else if line_join_style ∉ ([0, 1, 2] : List ℤ) then .error joinErrMsg
  else if line_cap_style ∉ ([0, 1, 2] : List ℤ) then .error capErrMsg
  else
    (rect_color_block fill_color stroke_color).bind fun blk =>
      .ok (rect_stream point width height border_width line_join_style line_cap_style
        (dashStr dash_pattern) (blk ++ "S"))

/-- Source `Page.contents_add`: append one fragment to the page's content stream. -/
def contents_add (page : List String) (frag : String) : List String := page ++ [frag]

/-- The `draw_line` call at the page level: on success the fragment is appended by
`contents_add`; on any error nothing is appended (the source raises before
reaching `contents_add`). -/
def draw_line_on (page : List String) (start_point end_point : ℚ × ℚ)
    (border_width : ℚ) (stroke_color : Option PySeq) (dash_pattern : Option String)
    (line_join_style line_cap_style : ℤ) : Except String (List String) :=
  (draw_line start_point end_point border_width stroke_color dash_pattern
    line_join_style line_cap_style).map (contents_add page)

/-- The `draw_rect` call at the page level, as in `draw_line_on`. -/
def draw_rect_on (page : List String) (point : ℚ × ℚ) (width height border_width : ℚ)
    (stroke_color : Option PySeq) (dash_pattern : Option String)
    (fill_color : Option PySeq) (line_join_style line_cap_style : ℤ) :
    Except String (List String) :=
  (draw_rect point width height border_width stroke_color dash_pattern fill_color
    line_join_style line_cap_style).map (contents_add page)

/-- Success test on `Except` without library dependence. -/
def isOkB : Except String α → Bool
  | .ok _ => true
  | .error _ => false

/-- Occurrence of `needle` as a contiguous substring of `hay`. -/
def strOccurs (needle hay : String) : Prop := needle.data <:+: hay.data


/-- The color/paint operator string chosen by `draw_line` for `all_color_str`
before the appended `'S'`: the given stroke color, or default black. -/
def line_color (stroke_color : Option PySeq) : Except String String :=
  match stroke_color with
  | some sc => color_code sc "c"
  | none => color_code (.list [0, 0, 0]) "c"

instance (n hay : String) : Decidable (strOccurs n hay) :=
  inferInstanceAs (Decidable (n.data <:+: hay.data))

theorem foldl_min_le_init (xs : List ℚ) (a : ℚ) : xs.foldl min a ≤ a := by
  induction xs generalizing a with
  | nil => simp
  | cons y ys ih => exact le_trans (ih (min a y)) (min_le_left a y)

theorem foldl_min_le_mem (xs : List ℚ) : ∀ (a x : ℚ), x ∈ xs → xs.foldl min a ≤ x := by
  induction xs with
  | nil => intro a x hx; cases hx
  | cons y ys ih =>
    intro a x hx
    rcases List.mem_cons.mp hx with rfl | hx2
    · exact le_trans (foldl_min_le_init ys (min a x)) (min_le_right a x)
    · exact ih (min a y) x hx2

theorem init_le_foldl_max (xs : List ℚ) (a : ℚ) : a ≤ xs.foldl max a := by
  induction xs generalizing a with
  | nil => simp
  | cons y ys ih => exact le_trans (le_max_left a y) (ih (max a y))

theorem mem_le_foldl_max (xs : List ℚ) : ∀ (a x : ℚ), x ∈ xs → x ≤ xs.foldl max a := by
  induction xs with
  | nil => intro a x hx; cases hx
  | cons y ys ih =>
    intro a x hx
    rcases List.mem_cons.mp hx with rfl | hx2
    · exact le_trans (le_max_right a x) (init_le_foldl_max ys (max a x))
    · exact ih (max a y) x hx2

theorem pyMin_le_of_mem {l : List ℚ} {x : ℚ} (hx : x ∈ l) : pyMin l ≤ x := by
  cases l with
  | nil => cases hx
  | cons y ys =>
    simp only [pyMin]
    rcases List.mem_cons.mp hx with rfl | hx2
    · exact foldl_min_le_init ys x
    · exact foldl_min_le_mem ys y x hx2

theorem le_pyMax_of_mem {l : List ℚ} {x : ℚ} (hx : x ∈ l) : x ≤ pyMax l := by
  cases l with
  | nil => cases hx
  | cons y ys =>
    simp only [pyMax]
    rcases List.mem_cons.mp hx with rfl | hx2
    · exact init_le_foldl_max ys x
    · exact mem_le_foldl_max ys y x hx2

theorem colorBad_of_invalid {l : List ℚ}
    (h : l.length ≠ 3 ∨ ∃ x ∈ l, x < 0 ∨ 1 < x) :
    colorBad (.list l) = true := by
  simp only [colorBad, PySeq.isList, PySeq.comps, Bool.not_true, Bool.false_or,
    Bool.or_eq_true, bne_iff_ne, ne_eq, decide_eq_true_eq]
  rcases h with h | ⟨x, hm, hx⟩
  · exact Or.inl (Or.inl h)
  · rcases hx with hlt | hgt
    · exact Or.inl (Or.inr (lt_of_le_of_lt (pyMin_le_of_mem hm) hlt))
    · exact Or.inr (lt_of_lt_of_le hgt (le_pyMax_of_mem hm))

theorem colorBad_valid {r g b : ℚ}
    (hr0 : 0 ≤ r) (hr1 : r ≤ 1) (hg0 : 0 ≤ g) (hg1 : g ≤ 1) (hb0 : 0 ≤ b) (hb1 : b ≤ 1) :
    colorBad (.list [r, g, b]) = false := by
  have hmin : ¬ pyMin [r, g, b] < 0 := by
    simp only [pyMin, List.foldl]
    exact not_lt.mpr (le_min (le_min hr0 hg0) hb0)
  have hmax : ¬ pyMax [r, g, b] > 1 := by
    simp only [pyMax, List.foldl]
    exact not_lt.mpr (max_le (max_le hr1 hg1) hb1)
  simp [colorBad, PySeq.isList, PySeq.comps, hmin, hmax]

theorem color_code_ok {c : PySeq} (h : colorBad c = false) (f : String) :
    color_code c f = .ok (color_str c.comps f) := by
  simp [color_code, h]

theorem color_code_err {c : PySeq} (h : colorBad c = true) (f : String) :
    color_code c f = .error colorErrMsg := by
  simp [color_code, h]

/-- Evaluation of `color_code` on a well-formed 3-component list, with the guard discharged
and the components spelled out. -/
theorem color_code_list3 (r g b : ℚ) (f : String)
    (hr0 : 0 ≤ r) (hr1 : r ≤ 1) (hg0 : 0 ≤ g) (hg1 : g ≤ 1) (hb0 : 0 ≤ b) (hb1 : b ≤ 1) :
    color_code (.list [r, g, b]) f =
      .ok (ratStr r ++ " " ++ ratStr g ++ " " ++ ratStr b ++
        (if f == "c" then " RG " else " rg ")) := by
  rw [color_code_ok (colorBad_valid hr0 hr1 hg0 hg1 hb0 hb1) f]
  rfl

/-- Reduction of `draw_line` once the three parameter validations have passed. -/
theorem draw_line_validated (start_point end_point : ℚ × ℚ) (border_width : ℚ)
    (stroke_color : Option PySeq) (dash_pattern : Option String)
    (line_join_style line_cap_style : ℤ)
    (hbw : 0 ≤ border_width) (hj : line_join_style ∈ ([0, 1, 2] : List ℤ))
    (hc : line_cap_style ∈ ([0, 1, 2] : List ℤ)) :
    draw_line start_point end_point border_width stroke_color dash_pattern
      line_join_style line_cap_style =
    (line_color stroke_color).bind fun cstr =>
      .ok (line_stream start_point end_point border_width line_join_style line_cap_style
        (dashStr dash_pattern) (cstr ++ "S")) := by
  unfold draw_line line_color
  rw [if_neg (not_lt.mpr hbw), if_neg (not_not_intro hj), if_neg (not_not_intro hc)]

/-- Reduction of `draw_rect` once the three parameter validations have passed. -/
theorem draw_rect_validated (point : ℚ × ℚ) (width height border_width : ℚ)
    (stroke_color : Option PySeq) (dash_pattern : Option String)
    (fill_color : Option PySeq) (line_join_style line_cap_style : ℤ)
    (hbw : 0 ≤ border_width) (hj : line_join_style ∈ ([0, 1, 2] : List ℤ))
    (hc : line_cap_style ∈ ([0, 1, 2] : List ℤ)) :
    draw_rect point width height border_width stroke_color dash_pattern fill_color
      line_join_style line_cap_style =
    (rect_color_block fill_color stroke_color).bind fun blk =>
      .ok (rect_stream point width height border_width line_join_style line_cap_style
        (dashStr dash_pattern) (blk ++ "S")) := by
  unfold draw_rect
  rw [if_neg (not_lt.mpr hbw), if_neg (not_not_intro hj), if_neg (not_not_intro hc)]

/-- Every error produced by `color_code` carries the `InvalidColor` message. -/
theorem color_code_error_msg {c : PySeq} {f e : String}
    (h : color_code c f = .error e) : e = colorErrMsg := by
  unfold color_code at h
  split at h
  · cases h; rfl
  · cases h

theorem isOkB_map {α β : Type} (x : Except String α) (g : α → β) :
    isOkB (x.map g) = isOkB x := by
  cases x <;> rfl

theorem isOkB_bind_false {α β : Type} {x : Except String α} {g : α → Except String β}
    (h : isOkB x = false) : isOkB (x.bind g) = false := by
  cases x with
  | error e => rfl
  | ok a => simp [isOkB] at h

/-- A failed `color_code` of the stroke color makes the whole block fail. -/
theorem rect_color_block_fails_sc (fill_color : Option PySeq) {col : PySeq}
    (hbad : colorBad col = true) :
    isOkB (rect_color_block fill_color (some col)) = false := by
  cases fill_color with
  | none =>
    simp only [rect_color_block]
    rw [color_code_err hbad "c"]
    rfl
  | some f2 =>
    simp only [rect_color_block]
    cases hf : color_code f2 "f" with
    | error e => rfl
    | ok s =>
      show isOkB ((color_code col "c").bind fun ss =>
        (Except.ok (s ++ ss ++ "B\n") : Except String String)) = false
      rw [color_code_err hbad "c"]
      rfl

/-- A failed `color_code` of the fill color makes the whole block fail. -/
theorem rect_color_block_fails_fc {col : PySeq} (stroke_color : Option PySeq)
    (hbad : colorBad col = true) :
    isOkB (rect_color_block (some col) stroke_color) = false := by
  cases stroke_color with
  | none =>
    simp only [rect_color_block]
    rw [color_code_err hbad "f"]
    rfl
  | some s2 =>
    simp only [rect_color_block]
    rw [color_code_err hbad "f"]
    rfl

theorem strOccurs_mid (n a b tail : String) (h : strOccurs n b) :
    strOccurs n (a ++ b ++ tail) := by
  unfold strOccurs at *
  rw [String.data_append, String.data_append]
  exact h.trans (List.infix_append a.data b.data tail.data)

theorem strOccurs_self_append (n s : String) : strOccurs n (n ++ s) := by
  unfold strOccurs
  rw [String.data_append]
  exact List.IsPrefix.isInfix (List.prefix_append n.data s.data)

/-- C2: for every color input whose component count is not 3, or that has some
component strictly below 0 or strictly above 1, `color_code` fails with the
`InvalidColor` `ValueError`, in both stroke (`"c"`) and fill mode (the mode
string is universally quantified); no clamping or coercion is performed, the
call simply errors. -/
theorem color_code_rejects_out_of_range (c : PySeq) (f : String)
    (h : c.comps.length ≠ 3 ∨ ∃ x ∈ c.comps, x < 0 ∨ 1 < x) :
    color_code c f = .error colorErrMsg := by
  cases c with
  | list l => exact color_code_err (colorBad_of_invalid h) f
  | tuple l => exact color_code_err (by simp [colorBad, PySeq.isList]) f

theorem color_code_rejects_out_of_range_witness :
    color_code (.list [2, 0, 0]) "c" = .error colorErrMsg ∧
    color_code (.list [0, 0]) "f" = .error colorErrMsg :=
  ⟨color_code_rejects_out_of_range (.list [2, 0, 0]) "c"
      (Or.inr ⟨2, by decide, Or.inr (by norm_num)⟩),
    color_code_rejects_out_of_range (.list [0, 0]) "f" (Or.inl (by decide))⟩

/-- C6: for every color with exactly 3 components, each in [0,1], `color_code`
succeeds and returns exactly the channel values rendered verbatim, space
separated, suffixed `" RG "` in stroke mode (`"c"`) and `" rg "` in fill mode
(`"f"`), trailing space retained. -/
theorem color_code_valid_output (r g b : ℚ)
    (hr0 : 0 ≤ r) (hr1 : r ≤ 1) (hg0 : 0 ≤ g) (hg1 : g ≤ 1) (hb0 : 0 ≤ b) (hb1 : b ≤ 1) :
    color_code (.list [r, g, b]) "c"
      = .ok (ratStr r ++ " " ++ ratStr g ++ " " ++ ratStr b ++ " RG ") ∧
    color_code (.list [r, g, b]) "f"
      = .ok (ratStr r ++ " " ++ ratStr g ++ " " ++ ratStr b ++ " rg ") := by
  constructor
  · rw [color_code_list3 r g b "c" hr0 hr1 hg0 hg1 hb0 hb1]
    rfl
  · rw [color_code_list3 r g b "f" hr0 hr1 hg0 hg1 hb0 hb1]
    rfl

theorem color_code_valid_output_witness :
    color_code (.list [0, 1, 1]) "c"
      = .ok (ratStr 0 ++ " " ++ ratStr 1 ++ " " ++ ratStr 1 ++ " RG ") ∧
    color_code (.list [0, 1, 1]) "f"
      = .ok (ratStr 0 ++ " " ++ ratStr 1 ++ " " ++ ratStr 1 ++ " rg ") :=
  color_code_valid_output 0 1 1 (by norm_num) (by norm_num) (by norm_num)
    (by norm_num) (by norm_num) (by norm_num)

/-- C9: `color_code` rejects any non-list input with the `InvalidColor`
`ValueError`, even a non-list sequence of exactly 3 components each in [0,1]
(the source guard is `type(c) is not list`); only list inputs can succeed. -/
theorem color_code_rejects_non_list (l : List ℚ) (f g : String) (c : PySeq)
    (hlen : l.length = 3) (hin : ∀ x ∈ l, 0 ≤ x ∧ x ≤ 1) (hc : c.isList = false) :
    color_code (.tuple l) f = .error colorErrMsg ∧ isOkB (color_code c g) = false := by
  constructor
  · exact color_code_err (by simp [colorBad, PySeq.isList]) f
  · have hbad : colorBad c = true := by simp [colorBad, hc]
    rw [color_code_err hbad g]
    rfl

theorem color_code_rejects_non_list_witness :
    color_code (.tuple [0, 1, 1]) "f" = .error colorErrMsg ∧
    isOkB (color_code (.tuple [0, 1, 1]) "c") = false :=
  color_code_rejects_non_list [0, 1, 1] "f" "c" (.tuple [0, 1, 1]) rfl
    (by norm_num) rfl

/-- C10: the mode flag of `color_code` is not a two-variant check: every mode
string other than exactly `"c"` selects the fill operator `" rg "`, and only
`"c"` selects the stroke operator `" RG "`. -/
theorem color_code_mode_flag (r g b : ℚ) (f : String)
    (hr0 : 0 ≤ r) (hr1 : r ≤ 1) (hg0 : 0 ≤ g) (hg1 : g ≤ 1) (hb0 : 0 ≤ b) (hb1 : b ≤ 1)
    (hf : f ≠ "c") :
    color_code (.list [r, g, b]) f
      = .ok (ratStr r ++ " " ++ ratStr g ++ " " ++ ratStr b ++ " rg ") ∧
    color_code (.list [r, g, b]) "c"
      = .ok (ratStr r ++ " " ++ ratStr g ++ " " ++ ratStr b ++ " RG ") := by
  constructor
  · rw [color_code_list3 r g b f hr0 hr1 hg0 hg1 hb0 hb1,
      if_neg (by simp [beq_eq_false_iff_ne.mpr hf])]
  · rw [color_code_list3 r g b "c" hr0 hr1 hg0 hg1 hb0 hb1]
    rfl

theorem color_code_mode_flag_witness :
    color_code (.list [0, 1, 1]) "xyz"
      = .ok (ratStr 0 ++ " " ++ ratStr 1 ++ " " ++ ratStr 1 ++ " rg ") ∧
    color_code (.list [0, 1, 1]) "c"
      = .ok (ratStr 0 ++ " " ++ ratStr 1 ++ " " ++ ratStr 1 ++ " RG ") :=
  color_code_mode_flag 0 1 1 "xyz" (by norm_num) (by norm_num) (by norm_num)
    (by norm_num) (by norm_num) (by norm_num) (by decide)

theorem bind_error_cases {α β : Type} {x : Except String α} {g : α → Except String β}
    {e : String} (h : x.bind g = .error e) :
    x = .error e ∨ ∃ a, x = .ok a ∧ g a = .error e := by
  cases x with
  | error e2 =>
    left
    have hred : (Except.error e2 : Except String α).bind g = Except.error e2 := rfl
    rw [hred] at h
    injection h with h2
    rw [h2]
  | ok a =>
    right
    refine ⟨a, rfl, ?_⟩
    have hred : (Except.ok a : Except String α).bind g = g a := rfl
    rw [hred] at h
    exact h

theorem line_color_error_msg {stroke_color : Option PySeq} {e : String}
    (h : line_color stroke_color = .error e) : e = colorErrMsg := by
  cases stroke_color with
  | some s =>
    simp only [line_color] at h
    exact color_code_error_msg h
  | none =>
    simp only [line_color] at h
    exact color_code_error_msg h

theorem rect_color_block_error_msg {fill_color stroke_color : Option PySeq} {e : String}
    (h : rect_color_block fill_color stroke_color = .error e) : e = colorErrMsg := by
  cases fill_color with
  | none =>
    cases stroke_color with
    | none =>
      simp only [rect_color_block] at h
      rcases bind_error_cases h with h2 | ⟨a, _, h2⟩
      · exact color_code_error_msg h2
      · simp at h2
    | some s =>
      simp only [rect_color_block] at h
      rcases bind_error_cases h with h2 | ⟨a, _, h2⟩
      · exact color_code_error_msg h2
      · simp at h2
  | some f2 =>
    cases stroke_color with
    | none =>
      simp only [rect_color_block] at h
      rcases bind_error_cases h with h2 | ⟨a, _, h2⟩
      · exact color_code_error_msg h2
      · simp at h2
    | some s =>
      simp only [rect_color_block] at h
      rcases bind_error_cases h with h2 | ⟨a, _, h2⟩
      · exact color_code_error_msg h2
      · rcases bind_error_cases h2 with h3 | ⟨a2, _, h3⟩
        · exact color_code_error_msg h3
        · simp at h3

/-- After the three validations pass, the only failure `draw_line` can produce
is the `InvalidColor` error. -/
theorem draw_line_error_msg {start_point end_point : ℚ × ℚ} {border_width : ℚ}
    {stroke_color : Option PySeq} {dash_pattern : Option String}
    {line_join_style line_cap_style : ℤ} {e : String}
    (hbw : 0 ≤ border_width) (hj : line_join_style ∈ ([0, 1, 2] : List ℤ))
    (hc : line_cap_style ∈ ([0, 1, 2] : List ℤ))
    (h : draw_line start_point end_point border_width stroke_color dash_pattern
      line_join_style line_cap_style = .error e) : e = colorErrMsg := by
  rw [draw_line_validated start_point end_point border_width stroke_color dash_pattern
    line_join_style line_cap_style hbw hj hc] at h
  rcases bind_error_cases h with h2 | ⟨a, _, h2⟩
  · exact line_color_error_msg h2
  · simp at h2

/-- After the three validations pass, the only failure `draw_rect` can produce
is the `InvalidColor` error. -/
theorem draw_rect_error_msg {point : ℚ × ℚ} {width height border_width : ℚ}
    {stroke_color : Option PySeq} {dash_pattern : Option String}
    {fill_color : Option PySeq} {line_join_style line_cap_style : ℤ} {e : String}
    (hbw : 0 ≤ border_width) (hj : line_join_style ∈ ([0, 1, 2] : List ℤ))
    (hc : line_cap_style ∈ ([0, 1, 2] : List ℤ))
    (h : draw_rect point width height border_width stroke_color dash_pattern fill_color
      line_join_style line_cap_style = .error e) : e = colorErrMsg := by
  rw [draw_rect_validated point width height border_width stroke_color dash_pattern
    fill_color line_join_style line_cap_style hbw hj hc] at h
  rcases bind_error_cases h with h2 | ⟨a, _, h2⟩
  · exact rect_color_block_error_msg h2
  · simp at h2

/-- C3: `draw_line` and `draw_rect` fail with the `InvalidParameter`
`ValueError`s when `border_width < 0`, or when the join/cap style is not one
of 0, 1, 2 (checked in that order); when `border_width ≥ 0` and both styles
are in {0,1,2}, these validations pass: neither call can return any of the
three `InvalidParameter` errors. -/
theorem draw_validation_errors (sp ep p : ℚ × ℚ) (w h bw : ℚ) (sc fc : Option PySeq)
    (dp : Option String) (j c : ℤ) :
    (bw < 0 →
      draw_line sp ep bw sc dp j c = .error borderErrMsg ∧
      draw_rect p w h bw sc dp fc j c = .error borderErrMsg) ∧
    (0 ≤ bw → j ∉ ([0, 1, 2] : List ℤ) →
      draw_line sp ep bw sc dp j c = .error joinErrMsg ∧
      draw_rect p w h bw sc dp fc j c = .error joinErrMsg) ∧
    (0 ≤ bw → j ∈ ([0, 1, 2] : List ℤ) → c ∉ ([0, 1, 2] : List ℤ) →
      draw_line sp ep bw sc dp j c = .error capErrMsg ∧
      draw_rect p w h bw sc dp fc j c = .error capErrMsg) ∧
    (0 ≤ bw → j ∈ ([0, 1, 2] : List ℤ) → c ∈ ([0, 1, 2] : List ℤ) →
      draw_line sp ep bw sc dp j c ≠ .error borderErrMsg ∧
      draw_line sp ep bw sc dp j c ≠ .error joinErrMsg ∧
      draw_line sp ep bw sc dp j c ≠ .error capErrMsg ∧
      draw_rect p w h bw sc dp fc j c ≠ .error borderErrMsg ∧
      draw_rect p w h bw sc dp fc j c ≠ .error joinErrMsg ∧
      draw_rect p w h bw sc dp fc j c ≠ .error capErrMsg) := by
  refine ⟨?_, ?_, ?_, ?_⟩
  · intro hbw
    constructor
    · unfold draw_line
      rw [if_pos hbw]
    · unfold draw_rect
      rw [if_pos hbw]
  · intro hbw hj
    constructor
    · unfold draw_line
      rw [if_neg (not_lt.mpr hbw), if_pos hj]
    · unfold draw_rect
      rw [if_neg (not_lt.mpr hbw), if_pos hj]
  · intro hbw hj hcp
    constructor
    · unfold draw_line
      rw [if_neg (not_lt.mpr hbw), if_neg (not_not_intro hj), if_pos hcp]
    · unfold draw_rect
      rw [if_neg (not_lt.mpr hbw), if_neg (not_not_intro hj), if_pos hcp]
  · intro hbw hj hcp
    refine ⟨?_, ?_, ?_, ?_, ?_, ?_⟩ <;> intro hEq
    · exact absurd (draw_line_error_msg hbw hj hcp hEq) (by decide)
    · exact absurd (draw_line_error_msg hbw hj hcp hEq) (by decide)
    · exact absurd (draw_line_error_msg hbw hj hcp hEq) (by decide)
    · exact absurd (draw_rect_error_msg hbw hj hcp hEq) (by decide)
    · exact absurd (draw_rect_error_msg hbw hj hcp hEq) (by decide)
    · exact absurd (draw_rect_error_msg hbw hj hcp hEq) (by decide)

theorem draw_validation_errors_witness :
    draw_line (0, 0) (1, 1) (-1) none none 0 0 = .error borderErrMsg ∧
    draw_rect (0, 0) 1 1 (-1) none none none 0 0 = .error borderErrMsg :=
  (draw_validation_errors (0, 0) (1, 1) (0, 0) 1 1 (-1) none none none 0 0).1
    (by norm_num)

/-- The call `draw_line` returns an error whenever a validation fails or the supplied
stroke color is invalid. -/
theorem draw_line_fails (sp ep : ℚ × ℚ) (bw : ℚ) (sc : Option PySeq)
    (dp : Option String) (j c : ℤ)
    (h : bw < 0 ∨ j ∉ ([0, 1, 2] : List ℤ) ∨ c ∉ ([0, 1, 2] : List ℤ) ∨
      ∃ col, sc = some col ∧ colorBad col = true) :
    isOkB (draw_line sp ep bw sc dp j c) = false := by
  unfold draw_line
  split
  · rfl
  · next hbw =>
    split
    · rfl
    · next hj =>
      split
      · rfl
      · next hcp =>
        rcases h with h2 | h2 | h2 | ⟨col, rfl, hbad⟩
        · exact absurd h2 hbw
        · exact absurd h2 hj
        · exact absurd h2 hcp
        · show isOkB ((color_code col "c").bind fun cstr =>
            (Except.ok (line_stream sp ep bw j c (dashStr dp) (cstr ++ "S")) :
              Except String String)) = false
          rw [color_code_err hbad "c"]
          rfl

/-- The call `draw_rect` returns an error whenever a validation fails or a supplied
color (stroke or fill) is invalid. -/
theorem draw_rect_fails (p : ℚ × ℚ) (w h bw : ℚ) (sc fc : Option PySeq)
    (dp : Option String) (j c : ℤ)
    (hfail : bw < 0 ∨ j ∉ ([0, 1, 2] : List ℤ) ∨ c ∉ ([0, 1, 2] : List ℤ) ∨
      (∃ col, sc = some col ∧ colorBad col = true) ∨
      (∃ col, fc = some col ∧ colorBad col = true)) :
    isOkB (draw_rect p w h bw sc dp fc j c) = false := by
  unfold draw_rect
  split
  · rfl
  · next hbw =>
    split
    · rfl
    · next hj =>
      split
      · rfl
      · next hcp =>
        rcases hfail with h2 | h2 | h2 | ⟨col, rfl, hbad⟩ | ⟨col, rfl, hbad⟩
        · exact absurd h2 hbw
        · exact absurd h2 hj
        · exact absurd h2 hcp
        · exact isOkB_bind_false (rect_color_block_fails_sc fc hbad)
        · exact isOkB_bind_false (rect_color_block_fails_fc sc hbad)

/-- C7: every `draw_line` / `draw_rect` call that fails validation
(`InvalidParameter` on border width / join / cap) or color encoding
(`InvalidColor` on a supplied color) aborts before `contents_add`: the
page-level operation yields no success value, so nothing — not even a partial
fragment — is appended to the page's content stream (`draw_line_on` /
`draw_rect_on` append only in the success case). -/
theorem draw_no_partial_append (page : List String) (sp ep p : ℚ × ℚ) (w h bw : ℚ)
    (sc fc : Option PySeq) (dp : Option String) (j c : ℤ)
    (hL : bw < 0 ∨ j ∉ ([0, 1, 2] : List ℤ) ∨ c ∉ ([0, 1, 2] : List ℤ) ∨
      ∃ col, sc = some col ∧ colorBad col = true)
    (hR : bw < 0 ∨ j ∉ ([0, 1, 2] : List ℤ) ∨ c ∉ ([0, 1, 2] : List ℤ) ∨
      (∃ col, sc = some col ∧ colorBad col = true) ∨
      (∃ col, fc = some col ∧ colorBad col = true)) :
    isOkB (draw_line_on page sp ep bw sc dp j c) = false ∧
    isOkB (draw_rect_on page p w h bw sc dp fc j c) = false := by
  constructor
  · unfold draw_line_on
    rw [isOkB_map]
    exact draw_line_fails sp ep bw sc dp j c hL
  · unfold draw_rect_on
    rw [isOkB_map]
    exact draw_rect_fails p w h bw sc fc dp j c hR

theorem draw_no_partial_append_witness :
    isOkB (draw_line_on [] (0, 0) (1, 1) (-1) none none 0 0) = false ∧
    isOkB (draw_rect_on [] (0, 0) 1 1 (-1) none none none 0 0) = false :=
  draw_no_partial_append [] (0, 0) (1, 1) (0, 0) 1 1 (-1) none none none 0 0
    (Or.inl (by norm_num)) (Or.inl (by norm_num))

theorem strOccurs_append_self (s n : String) : strOccurs n (s ++ n) := by
  unfold strOccurs
  rw [String.data_append]
  exact List.IsSuffix.isInfix (List.suffix_append s.data n.data)

/-- C4: a `draw_rect` call with both a valid fill and a valid stroke color
emits, in order, the fill-color operator (`rg`), the stroke-color operator
(`RG`), the `B` fill+stroke paint operator, and the unconditional trailing
`S` — the double-paint quirk. The color/paint block spliced into the
template is exactly that concatenation. -/
theorem draw_rect_both_colors_block (p : ℚ × ℚ) (w h bw : ℚ) (dp : Option String)
    (j c : ℤ) (fr fg fb sr sg sb : ℚ)
    (hbw : 0 ≤ bw) (hj : j ∈ ([0, 1, 2] : List ℤ)) (hc : c ∈ ([0, 1, 2] : List ℤ))
    (hf0r : 0 ≤ fr) (hf1r : fr ≤ 1) (hf0g : 0 ≤ fg) (hf1g : fg ≤ 1)
    (hf0b : 0 ≤ fb) (hf1b : fb ≤ 1)
    (hs0r : 0 ≤ sr) (hs1r : sr ≤ 1) (hs0g : 0 ≤ sg) (hs1g : sg ≤ 1)
    (hs0b : 0 ≤ sb) (hs1b : sb ≤ 1) :
    draw_rect p w h bw (some (.list [sr, sg, sb])) dp (some (.list [fr, fg, fb])) j c =
      .ok (rect_stream p w h bw j c (dashStr dp)
        (ratStr fr ++ " " ++ ratStr fg ++ " " ++ ratStr fb ++ " rg " ++
          (ratStr sr ++ " " ++ ratStr sg ++ " " ++ ratStr sb ++ " RG ") ++ "B\n" ++ "S")) := by
  rw [draw_rect_validated p w h bw (some (.list [sr, sg, sb])) dp
    (some (.list [fr, fg, fb])) j c hbw hj hc]
  simp only [rect_color_block]
  rw [color_code_list3 fr fg fb "f" hf0r hf1r hf0g hf1g hf0b hf1b,
    color_code_list3 sr sg sb "c" hs0r hs1r hs0g hs1g hs0b hs1b]
  rfl

theorem draw_rect_both_colors_block_witness :
    draw_rect (0, 0) 1 1 0 (some (.list [0, 0, 0])) none (some (.list [1, 0, 0])) 0 0 =
      .ok (rect_stream (0, 0) 1 1 0 0 0 (dashStr none)
        (ratStr 1 ++ " " ++ ratStr 0 ++ " " ++ ratStr 0 ++ " rg " ++
          (ratStr 0 ++ " " ++ ratStr 0 ++ " " ++ ratStr 0 ++ " RG ") ++ "B\n" ++ "S")) :=
  draw_rect_both_colors_block (0, 0) 1 1 0 none 0 0 1 0 0 0 0 0
    (by norm_num) (by decide) (by decide)
    (by norm_num) (by norm_num) (by norm_num) (by norm_num) (by norm_num) (by norm_num)
    (by norm_num) (by norm_num) (by norm_num) (by norm_num) (by norm_num) (by norm_num)

/-- C5: a valid `draw_line` call produces exactly the fixed template: save
state `q`, move-to `m`, line-to `l`, width `w`, close-path `h`, join `j`,
cap `J`, the dash token (`... d` when provided, a single blank otherwise —
`dashStr`), the stroke-color operator followed by the `S` paint operator, and
restore state `Q`, in that order. On the spec's concrete scenario the
fragment contains no `f`, `r`, or `g` character at all, so no fill operator
(`f` or `rg`) appears. -/
theorem draw_line_fragment_order (sp ep : ℚ × ℚ) (bw : ℚ) (dp : Option String)
    (j c : ℤ) (sr sg sb : ℚ)
    (hbw : 0 ≤ bw) (hj : j ∈ ([0, 1, 2] : List ℤ)) (hc : c ∈ ([0, 1, 2] : List ℤ))
    (hs0r : 0 ≤ sr) (hs1r : sr ≤ 1) (hs0g : 0 ≤ sg) (hs1g : sg ≤ 1)
    (hs0b : 0 ≤ sb) (hs1b : sb ≤ 1) :
    draw_line sp ep bw (some (.list [sr, sg, sb])) dp j c =
      .ok (line_stream sp ep bw j c (dashStr dp)
        (ratStr sr ++ " " ++ ratStr sg ++ " " ++ ratStr sb ++ " RG " ++ "S")) ∧
    (draw_line (10, 50) (300, -400) 2 (some (.list [0, 1, 1]))
        (some "[2 5] 0") 1 1).toOption.map
      (fun s => (s.data.count 'f', s.data.count 'g', s.data.count 'r')) =
      some (0, 0, 0) := by
  constructor
  · rw [draw_line_validated sp ep bw (some (.list [sr, sg, sb])) dp j c hbw hj hc]
    simp only [line_color]
    rw [color_code_list3 sr sg sb "c" hs0r hs1r hs0g hs1g hs0b hs1b]
    rfl
  · rfl

theorem draw_line_fragment_order_witness :
    draw_line (10, 50) (300, -400) 2 (some (.list [0, 1, 1])) (some "[2 5] 0") 1 1 =
      .ok (line_stream (10, 50) (300, -400) 2 1 1 (dashStr (some "[2 5] 0"))
        (ratStr 0 ++ " " ++ ratStr 1 ++ " " ++ ratStr 1 ++ " RG " ++ "S")) ∧
    (draw_line (10, 50) (300, -400) 2 (some (.list [0, 1, 1]))
        (some "[2 5] 0") 1 1).toOption.map
      (fun s => (s.data.count 'f', s.data.count 'g', s.data.count 'r')) =
      some (0, 0, 0) :=
  draw_line_fragment_order (10, 50) (300, -400) 2 (some "[2 5] 0") 1 1 0 1 1
    (by norm_num) (by decide) (by decide)
    (by norm_num) (by norm_num) (by norm_num) (by norm_num) (by norm_num) (by norm_num)

/-- C8: a valid `draw_line` call with no stroke color, and a valid
`draw_rect` call with neither fill nor stroke color, default to the black
stroke color: the fragment is the template whose color block starts with
`"0 0 0 RG "`, and that operator string occurs in the emitted fragment. -/
theorem draw_default_black_stroke (sp ep p : ℚ × ℚ) (w h bw : ℚ) (dp : Option String)
    (j c : ℤ)
    (hbw : 0 ≤ bw) (hj : j ∈ ([0, 1, 2] : List ℤ)) (hc : c ∈ ([0, 1, 2] : List ℤ)) :
    draw_line sp ep bw none dp j c =
      .ok (line_stream sp ep bw j c (dashStr dp) ("0 0 0 RG " ++ "S")) ∧
    strOccurs "0 0 0 RG " (line_stream sp ep bw j c (dashStr dp) ("0 0 0 RG " ++ "S")) ∧
    draw_rect p w h bw none dp none j c =
      .ok (rect_stream p w h bw j c (dashStr dp) ("0 0 0 RG " ++ "\n" ++ "S")) ∧
    strOccurs "0 0 0 RG "
      (rect_stream p w h bw j c (dashStr dp) ("0 0 0 RG " ++ "\n" ++ "S")) := by
  refine ⟨?_, ?_, ?_, ?_⟩
  · rw [draw_line_validated sp ep bw none dp j c hbw hj hc]
    rfl
  · exact strOccurs_mid _ _ _ _ (strOccurs_self_append "0 0 0 RG " "S")
  · rw [draw_rect_validated p w h bw none dp none j c hbw hj hc]
    rfl
  · exact strOccurs_mid _ _ _ _ (by decide)

theorem draw_default_black_stroke_witness :
    draw_line (0, 0) (1, 1) 0 none none 0 0 =
      .ok (line_stream (0, 0) (1, 1) 0 0 0 (dashStr none) ("0 0 0 RG " ++ "S")) ∧
    strOccurs "0 0 0 RG " (line_stream (0, 0) (1, 1) 0 0 0 (dashStr none) ("0 0 0 RG " ++ "S")) ∧
    draw_rect (0, 0) 1 1 0 none none none 0 0 =
      .ok (rect_stream (0, 0) 1 1 0 0 0 (dashStr none) ("0 0 0 RG " ++ "\n" ++ "S")) ∧
    strOccurs "0 0 0 RG "
      (rect_stream (0, 0) 1 1 0 0 0 (dashStr none) ("0 0 0 RG " ++ "\n" ++ "S")) :=
  draw_default_black_stroke (0, 0) (1, 1) (0, 0) 1 1 0 none 0 0
    (by norm_num) (by decide) (by decide)

set_option maxRecDepth 8192 in
/-- C1 counterexample: the claim says a fill-only `draw_rect` fragment
contains no `S` operator, but the source appends `'S'` unconditionally
(`all_color_str += 'S'` sits after the whole if/elif chain). At the concrete
fill-only call below, the emitted fragment ends its color block with
`"rg f\nS"` — the `S` operator occurs in it. -/
theorem fill_only_rect_contains_S :
    draw_rect (0, 0) 1 1 0 none none (some (.list [1, 0, 0])) 0 0 =
      .ok "\n        q\n        0 0 1 1 re\n        0 w\n        h\n        0 j\n        0 J\n         \n        1 0 0 rg f\nS\n        Q\n        " ∧
    strOccurs "S"
      "\n        q\n        0 0 1 1 re\n        0 w\n        h\n        0 j\n        0 J\n         \n        1 0 0 rg f\nS\n        Q\n        " :=
  ⟨rfl, by decide⟩

/-- C1 amended: when only a fill color is given (case 2), the color/paint
block is the fill-color operator followed by the fill-only operator `f`, and
the additional trailing `S` (stroke) operator is appended after the color
block in ALL branches, case 2 included — so a fill-only `draw_rect` fragment
does contain a trailing `S` operator after the `f`. -/
theorem draw_rect_fill_only_block (p : ℚ × ℚ) (w h bw : ℚ) (dp : Option String)
    (j c : ℤ) (fr fg fb : ℚ)
    (hbw : 0 ≤ bw) (hj : j ∈ ([0, 1, 2] : List ℤ)) (hc : c ∈ ([0, 1, 2] : List ℤ))
    (hf0r : 0 ≤ fr) (hf1r : fr ≤ 1) (hf0g : 0 ≤ fg) (hf1g : fg ≤ 1)
    (hf0b : 0 ≤ fb) (hf1b : fb ≤ 1) :
    draw_rect p w h bw none dp (some (.list [fr, fg, fb])) j c =
      .ok (rect_stream p w h bw j c (dashStr dp)
        (ratStr fr ++ " " ++ ratStr fg ++ " " ++ ratStr fb ++ " rg " ++ "f\n" ++ "S")) ∧
    strOccurs "S" (rect_stream p w h bw j c (dashStr dp)
      (ratStr fr ++ " " ++ ratStr fg ++ " " ++ ratStr fb ++ " rg " ++ "f\n" ++ "S")) := by
  constructor
  · rw [draw_rect_validated p w h bw none dp (some (.list [fr, fg, fb])) j c hbw hj hc]
    simp only [rect_color_block]
    rw [color_code_list3 fr fg fb "f" hf0r hf1r hf0g hf1g hf0b hf1b]
    rfl
  · exact strOccurs_mid _ _ _ _
      (strOccurs_append_self
        (ratStr fr ++ " " ++ ratStr fg ++ " " ++ ratStr fb ++ " rg " ++ "f\n") "S")

theorem draw_rect_fill_only_block_witness :
    draw_rect (0, 0) 1 1 0 none none (some (.list [1, 0, 0])) 0 0 =
      .ok (rect_stream (0, 0) 1 1 0 0 0 (dashStr none)
        (ratStr 1 ++ " " ++ ratStr 0 ++ " " ++ ratStr 0 ++ " rg " ++ "f\n" ++ "S")) ∧
    strOccurs "S" (rect_stream (0, 0) 1 1 0 0 0 (dashStr none)
      (ratStr 1 ++ " " ++ ratStr 0 ++ " " ++ ratStr 0 ++ " rg " ++ "f\n" ++ "S")) :=
  draw_rect_fill_only_block (0, 0) 1 1 0 none 0 0 1 0 0
    (by norm_num) (by decide) (by decide)
    (by norm_num) (by norm_num) (by norm_num) (by norm_num) (by norm_num) (by norm_num)
